import Mathlib

/-!
Shallow embedding of `src/WalkrX/walkrclient.py`: the exception class
`APIError` and the class `WalkrClient` with its request dispatcher
`_make_requests` and the endpoint wrapper methods the claims refer to.

Modelling conventions:
* Python dictionaries with string keys are association lists kept in
  insertion order; `d[k] = v` updates the first binding of `k` in place or
  appends a fresh binding at the end, exactly as a Python `dict` does.
* The network is passed in explicitly: `server : HttpRequest → HttpResponse`
  stands for the remote service behind `requests.Session`; one application
  of `server` corresponds to the single `session.post`/`session.get` call
  the dispatcher performs.
* Side effects are made explicit in the result record `MRResult`: the state
  of `self` after the call, the caller's payload object after the call (the
  dispatcher mutates it in place), the request transmitted (if any), and the
  Python-level outcome (return value or uncaught exception).
-/

namespace WalkrX

/-- Primitive payload values the client puts into request payloads. -/
inductive Value where
  | str (s : String)
  | int (n : Int)
  | bool (b : Bool)
deriving DecidableEq, Repr

/-- Python `dict` with string keys, in insertion order. -/
abbrev Payload := List (String × Value)

/-- Python `d[k] = v`: replace the first binding of `k`, otherwise append. -/
def dictSet (d : Payload) (k : String) (v : Value) : Payload :=
  match d with
  | [] => [(k, v)]
  | (k₀, v₀) :: rest => if k₀ = k then (k, v) :: rest else (k₀, v₀) :: dictSet rest k v

/-- Python `d.get(k)`: the value bound to `k`, if any. -/
def dictGet (d : Payload) (k : String) : Option Value :=
  match d with
  | [] => none
  | (k₀, v₀) :: rest => if k₀ = k then some v₀ else dictGet rest k

/-- Keys of the dictionary, in order. -/
def dictKeys (d : Payload) : List String :=
  d.map Prod.fst

/-- JSON values, as produced by decoding a response body with `result.json()`. -/
inductive Json where
  | null
  | bool (b : Bool)
  | num (n : Int)
  | str (s : String)
  | arr (xs : List Json)
  | obj (fields : List (String × Json))

/-- Exception class `APIError` (walkrclient.py lines 6–10). -/
structure APIError where
  status_code : Nat
  message : String
deriving DecidableEq, Repr

/-- Constructor `APIError.__init__`: store the status code and the message
formatted from it.  Nothing else — in particular no response body — is
stored. -/
def APIError.init (status_code : Nat) : APIError :=
  ⟨status_code, "Request failed with status code " ++ toString status_code⟩

/-- State of a `WalkrClient` instance (lines 14–35).  The `requests.Session`
object held in `self.session` carries no client-visible state in this code;
the network itself is modelled by the `server` argument of the dispatcher. -/
structure WalkrClient where
  headers : List (String × String)
  auth_token : String
  version : String
  platform : String
  tz : Int
  locale : String
deriving DecidableEq, Repr

/-- Header dictionary assigned in `__init__` (lines 23–29). -/
def defaultHeaders : List (String × String) :=
  [("Content-Type", "application/json"),
   ("Accept-Encoding", "br, gzip, deflate"),
   ("User-Agent", "Walkr/4.9.1 (iPhone; iOS 12.1.2; Scale/2.00)"),
   ("Connection", "keep-alive"),
   ("Host", "api.walkrconnect.com")]

/-- Constructor `WalkrClient.__init__` (lines 14–35); the Python defaults
are `timezone=8` and `locale='en'`. -/
def WalkrClient.init (auth_token client_version platform : String)
    (timezone : Int) (locale : String) : WalkrClient :=
  ⟨defaultHeaders, auth_token, client_version, platform, timezone, locale⟩

/-- Module-level constant `BASE_URL` (line 3). -/
def BASE_URL : String := "https://api.walkrconnect.com/api/v1"

/-- One HTTP request as constructed by `requests.Session`: `get` sends the
payload as query parameters (`params=payload`), `post` as a JSON body
(`json=payload`). -/
structure HttpRequest where
  url : String
  method : String
  queryParams : Option Payload
  jsonBody : Option Payload
  headers : List (String × String)
deriving DecidableEq

/-- The server's answer: status code, and the decoded JSON body returned by
`result.json()`. -/
structure HttpResponse where
  status_code : Nat
  body : Json

/-- Python-level exceptional outcomes of a client call. -/
inductive PyExc where
  | typeError
  | apiError (e : APIError)
deriving DecidableEq

/-- Result of a dispatcher call with every side effect explicit: `client` is
`self` after the call, `payload` the caller's payload object after the call
(the dispatcher mutates it in place), `sent` the request transmitted, if
any, and `result` the return value (`Option Json`, where `none` models
Python's `None`) or the uncaught exception. -/
structure MRResult where
  client : WalkrClient
  payload : Option Payload
  sent : Option HttpRequest
  result : Except PyExc (Option Json)

/-- Lines 52–56 of `_make_requests`: the five assignments that overwrite the
reserved keys with the session's values, in source order. -/
def addSessionFields (self : WalkrClient) (p : Payload) : Payload :=
  dictSet (dictSet (dictSet (dictSet (dictSet p
    "auth_token" (Value.str self.auth_token))
    "client_version" (Value.str self.version))
    "platform" (Value.str self.platform))
    "timezone" (Value.int self.tz))
    "locale" (Value.str self.locale)

/-- Lines 59–70 of `_make_requests`: transmit the request once, return the
decoded body on status 200, raise `APIError` with the status code otherwise.
`p` is the (already mutated) payload object seen by the caller afterwards. -/
def exchange (self : WalkrClient) (server : HttpRequest → HttpResponse)
    (req : HttpRequest) (p : Payload) : MRResult :=
  if (server req).status_code = 200 then
    ⟨self, some p, some req, Except.ok (some (server req).body)⟩
  else
    ⟨self, some p, some req,
      Except.error (PyExc.apiError (APIError.init (server req).status_code))⟩

/-- Method `WalkrClient._make_requests` (lines 51–70).  Subscripting a
`None` payload on line 52 raises `TypeError` before any request is sent.
An unrecognized verb reaches the bare `return` on line 63: the payload has
already been mutated, no request is sent, and `None` is returned. -/
def _make_requests (self : WalkrClient) (server : HttpRequest → HttpResponse)
    (url : String) (payload : Option Payload) (method : String) : MRResult :=
  match payload with
  | none => ⟨self, none, none, Except.error PyExc.typeError⟩
  | some p =>
    if method = "POST" then
      exchange self server
        ⟨url, "POST", none, some (addSessionFields self p), self.headers⟩
        (addSessionFields self p)
    else if method = "GET" then
      exchange self server
        ⟨url, "GET", some (addSessionFields self p), none, self.headers⟩
        (addSessionFields self p)
    else
      ⟨self, some (addSessionFields self p), none, Except.ok none⟩

/-- Method `WalkrClient.request` (lines 37–38); the Python default for
`payload` is `None`. -/
def request (self : WalkrClient) (server : HttpRequest → HttpResponse)
    (url : String) (payload : Option Payload) : MRResult :=
  _make_requests self server url payload "POST"

/-- Method `WalkrClient.fetch` (lines 40–49); the Python default for
`payload` is `None`. -/
def fetch (self : WalkrClient) (server : HttpRequest → HttpResponse)
    (url : String) (payload : Option Payload) : MRResult :=
  _make_requests self server url payload "GET"

/-- Method `fetch_shops` (lines 82–88): `self.fetch(url)` with the payload
left at its default `None`. -/
def fetch_shops (self : WalkrClient) (server : HttpRequest → HttpResponse) : MRResult :=
  fetch self server (BASE_URL ++ "/shops") none

/-- Method `fetch_epics` (lines 90–96): payload left at its default `None`. -/
def fetch_epics (self : WalkrClient) (server : HttpRequest → HttpResponse) : MRResult :=
  fetch self server (BASE_URL ++ "/epics") none

/-- Method `fetch_booster` (lines 188–194): payload left at its default
`None`. -/
def fetch_booster (self : WalkrClient) (server : HttpRequest → HttpResponse) : MRResult :=
  fetch self server (BASE_URL ++ "/boosts") none

/-- Method `start_booster` (lines 196–202): `self.request(url)` with the
payload left at its default `None`. -/
def start_booster (self : WalkrClient) (server : HttpRequest → HttpResponse) : MRResult :=
  request self server (BASE_URL ++ "/boosts") none

/-- Method `check_energy` (lines 147–154): `self.request(url)` with the
payload left at its default `None`. -/
def check_energy (self : WalkrClient) (server : HttpRequest → HttpResponse)
    (pilot_id : Int) : MRResult :=
  request self server (BASE_URL ++ "/pilots/" ++ toString pilot_id ++ "/check") none

/-- Method `fetch_fleet_comments` (lines 124–137); the Python defaults are
`offset=0` and `limit=30`. -/
def fetch_fleet_comments (self : WalkrClient) (server : HttpRequest → HttpResponse)
    (fleet_id offset limit : Int) : MRResult :=
  fetch self server (BASE_URL ++ "/fleets/" ++ toString fleet_id ++ "/comments")
    (some [("offset", Value.int offset), ("limit", Value.int limit)])

/-- Method `update_booster_information` (lines 204–213).  Line 213 is
`return self.fetch(url, payload, 'PUT')`, but `fetch` (line 40) accepts only
`url` and `payload`: the extra positional argument makes the call itself
raise `TypeError`, before the dispatcher runs and before any request is
sent; the freshly built payload is left unmutated. -/
def update_booster_information (self : WalkrClient) (server : HttpRequest → HttpResponse)
    (booster_id : Int) (data : Value) : MRResult :=
  ⟨self, some [("data", data)], none, Except.error PyExc.typeError⟩

/-- Method `donate_resources_for_epic` (lines 269–290); the Python defaults
are `value_a=0`, `value_b=0` and `value_c=0`. -/
def donate_resources_for_epic (self : WalkrClient) (server : HttpRequest → HttpResponse)
    (fleet_id hitpoints event_id value_a value_b value_c : Int) : MRResult :=
  request self server (BASE_URL ++ "/fleets/" ++ toString fleet_id ++ "/donate")
    (some [("event_status", Value.str "event"),
           ("event_type", Value.str "currency"),
           ("event_id", Value.int event_id),
           ("hitpoints", Value.int hitpoints),
           ("value_a", Value.int value_a),
           ("value_b", Value.int value_b),
           ("value_c", Value.int value_c)])

/-- Method `create_fleet` (lines 344–366); the Python defaults are
`privacy='public'` and `is_invitable=False`.  The `name` parameter is
accepted but never placed into the payload; `members` is joined into the
string `'0, ' + ', '.join(members)`. -/
def create_fleet (self : WalkrClient) (server : HttpRequest → HttpResponse)
    (members : List String) (badge_front badge_back : Int) (name : String)
    (epic_id : Int) (privacy : String) (is_invitable : Bool) : MRResult :=
  request self server (BASE_URL ++ "/fleets")
    (some [("epic_id", Value.int epic_id),
           ("members", Value.str ("0, " ++ String.intercalate ", " members)),
           ("badge_front", Value.int badge_front),
           ("badge_back", Value.int badge_back),
           ("privacy", Value.str privacy),
           ("is_invitable", Value.bool is_invitable)])

/-! ### Library lemmas about the dictionary model and the dispatcher -/

theorem dictGet_dictSet_self (d : Payload) (k : String) (v : Value) :
    dictGet (dictSet d k v) k = some v := by
  induction d with
  | nil => simp [dictSet, dictGet]
  | cons hd tl ih =>
    obtain ⟨k₀, v₀⟩ := hd
    by_cases h : k₀ = k
    · simp [dictSet, dictGet, h]
    · simpa [dictSet, dictGet, h] using ih

theorem dictGet_dictSet_ne (d : Payload) (k k' : String) (v : Value) (h : k ≠ k') :
    dictGet (dictSet d k v) k' = dictGet d k' := by
  induction d with
  | nil => simp [dictSet, dictGet, h]
  | cons hd tl ih =>
    obtain ⟨k₀, v₀⟩ := hd
    by_cases h₀ : k₀ = k
    · simp [dictSet, dictGet, h₀, h]
    · simp [dictSet, dictGet, h₀, ih]

theorem dictKeys_dictSet (d : Payload) (k : String) (v : Value) :
    dictKeys (dictSet d k v) =
      if k ∈ dictKeys d then dictKeys d else dictKeys d ++ [k] := by
  induction d with
  | nil => simp [dictSet, dictKeys]
  | cons hd tl ih =>
    obtain ⟨k₀, v₀⟩ := hd
    by_cases h₀ : k₀ = k
    · simp [dictSet, dictKeys, h₀]
    · have hne : ¬ (k = k₀) := fun h => h₀ h.symm
      simp only [dictSet, if_neg h₀, dictKeys, List.map_cons, List.mem_cons, hne,
        false_or] at ih ⊢
      rw [ih]
      split <;> rfl

theorem addSessionFields_auth_token (self : WalkrClient) (p : Payload) :
    dictGet (addSessionFields self p) "auth_token" = some (Value.str self.auth_token) := by
  unfold addSessionFields
  rw [dictGet_dictSet_ne _ _ _ _ (by decide), dictGet_dictSet_ne _ _ _ _ (by decide),
    dictGet_dictSet_ne _ _ _ _ (by decide), dictGet_dictSet_ne _ _ _ _ (by decide),
    dictGet_dictSet_self]

theorem addSessionFields_client_version (self : WalkrClient) (p : Payload) :
    dictGet (addSessionFields self p) "client_version" = some (Value.str self.version) := by
  unfold addSessionFields
  rw [dictGet_dictSet_ne _ _ _ _ (by decide), dictGet_dictSet_ne _ _ _ _ (by decide),
    dictGet_dictSet_ne _ _ _ _ (by decide), dictGet_dictSet_self]

theorem addSessionFields_platform (self : WalkrClient) (p : Payload) :
    dictGet (addSessionFields self p) "platform" = some (Value.str self.platform) := by
  unfold addSessionFields
  rw [dictGet_dictSet_ne _ _ _ _ (by decide), dictGet_dictSet_ne _ _ _ _ (by decide),
    dictGet_dictSet_self]

theorem addSessionFields_timezone (self : WalkrClient) (p : Payload) :
    dictGet (addSessionFields self p) "timezone" = some (Value.int self.tz) := by
  unfold addSessionFields
  rw [dictGet_dictSet_ne _ _ _ _ (by decide), dictGet_dictSet_self]

theorem addSessionFields_locale (self : WalkrClient) (p : Payload) :
    dictGet (addSessionFields self p) "locale" = some (Value.str self.locale) := by
  unfold addSessionFields
  rw [dictGet_dictSet_self]

theorem addSessionFields_other (self : WalkrClient) (p : Payload) (k : String)
    (h₁ : k ≠ "auth_token") (h₂ : k ≠ "client_version") (h₃ : k ≠ "platform")
    (h₄ : k ≠ "timezone") (h₅ : k ≠ "locale") :
    dictGet (addSessionFields self p) k = dictGet p k := by
  unfold addSessionFields
  rw [dictGet_dictSet_ne _ _ _ _ (Ne.symm h₅), dictGet_dictSet_ne _ _ _ _ (Ne.symm h₄),
    dictGet_dictSet_ne _ _ _ _ (Ne.symm h₃), dictGet_dictSet_ne _ _ _ _ (Ne.symm h₂),
    dictGet_dictSet_ne _ _ _ _ (Ne.symm h₁)]

theorem make_requests_none (self : WalkrClient) (server : HttpRequest → HttpResponse)
    (url : String) (method : String) :
    _make_requests self server url none method =
      ⟨self, none, none, Except.error PyExc.typeError⟩ := rfl

theorem make_requests_get (self : WalkrClient) (server : HttpRequest → HttpResponse)
    (url : String) (p : Payload) :
    _make_requests self server url (some p) "GET" =
      exchange self server
        ⟨url, "GET", some (addSessionFields self p), none, self.headers⟩
        (addSessionFields self p) := rfl

theorem make_requests_post (self : WalkrClient) (server : HttpRequest → HttpResponse)
    (url : String) (p : Payload) :
    _make_requests self server url (some p) "POST" =
      exchange self server
        ⟨url, "POST", none, some (addSessionFields self p), self.headers⟩
        (addSessionFields self p) := rfl

theorem make_requests_put (self : WalkrClient) (server : HttpRequest → HttpResponse)
    (url : String) (p : Payload) :
    _make_requests self server url (some p) "PUT" =
      ⟨self, some (addSessionFields self p), none, Except.ok none⟩ := rfl

theorem exchange_client (self : WalkrClient) (server : HttpRequest → HttpResponse)
    (req : HttpRequest) (p : Payload) :
    (exchange self server req p).client = self := by
  unfold exchange
  split <;> rfl

theorem exchange_payload (self : WalkrClient) (server : HttpRequest → HttpResponse)
    (req : HttpRequest) (p : Payload) :
    (exchange self server req p).payload = some p := by
  unfold exchange
  split <;> rfl

theorem exchange_sent (self : WalkrClient) (server : HttpRequest → HttpResponse)
    (req : HttpRequest) (p : Payload) :
    (exchange self server req p).sent = some req := by
  unfold exchange
  split <;> rfl

theorem exchange_result (self : WalkrClient) (server : HttpRequest → HttpResponse)
    (req : HttpRequest) (p : Payload) :
    (exchange self server req p).result =
      if (server req).status_code = 200 then Except.ok (some (server req).body)
      else Except.error (PyExc.apiError (APIError.init (server req).status_code)) := by
  unfold exchange
  split <;> simp_all

theorem make_requests_client (self : WalkrClient) (server : HttpRequest → HttpResponse)
    (url : String) (payload : Option Payload) (method : String) :
    (_make_requests self server url payload method).client = self := by
  cases payload with
  | none => rfl
  | some p =>
    simp only [_make_requests]
    split
    · exact exchange_client _ _ _ _
    · split
      · exact exchange_client _ _ _ _
      · rfl

/-! ### Concrete values used by witnesses -/

/-- A sample client, built by the constructor with the Python defaults
`timezone=8`, `locale='en'`. -/
def exampleClient : WalkrClient :=
  WalkrClient.init "token-123" "4.9.1" "ios" 8 "en"

/-- A server that always answers 200 with a small JSON object. -/
def okServer : HttpRequest → HttpResponse :=
  fun _ => ⟨200, Json.obj [("x", Json.num 1)]⟩

/-! ### The claims -/

/-- C1: for every payload mapping passed to the dispatcher, the payload
actually transmitted (as query parameters for GET, as the JSON body for
POST) is the caller's mapping with the five reserved keys set to the current
session's values: each reserved key reads back the session value whatever
the caller supplied, and every other key keeps the caller's binding. -/
theorem dispatcher_injects_session_fields
    (self : WalkrClient) (server : HttpRequest → HttpResponse)
    (url : String) (p : Payload) :
    (_make_requests self server url (some p) "GET").sent =
      some ⟨url, "GET", some (addSessionFields self p), none, self.headers⟩
    ∧ (_make_requests self server url (some p) "POST").sent =
      some ⟨url, "POST", none, some (addSessionFields self p), self.headers⟩
    ∧ dictGet (addSessionFields self p) "auth_token" = some (Value.str self.auth_token)
    ∧ dictGet (addSessionFields self p) "client_version" = some (Value.str self.version)
    ∧ dictGet (addSessionFields self p) "platform" = some (Value.str self.platform)
    ∧ dictGet (addSessionFields self p) "timezone" = some (Value.int self.tz)
    ∧ dictGet (addSessionFields self p) "locale" = some (Value.str self.locale)
    ∧ ∀ k, k ≠ "auth_token" → k ≠ "client_version" → k ≠ "platform" →
        k ≠ "timezone" → k ≠ "locale" →
        dictGet (addSessionFields self p) k = dictGet p k := by
  refine ⟨?_, ?_, addSessionFields_auth_token self p,
    addSessionFields_client_version self p, addSessionFields_platform self p,
    addSessionFields_timezone self p, addSessionFields_locale self p,
    fun k h₁ h₂ h₃ h₄ h₅ => addSessionFields_other self p k h₁ h₂ h₃ h₄ h₅⟩
  · rw [make_requests_get, exchange_sent]
  · rw [make_requests_post, exchange_sent]

/-- Witness for C1 at a concrete input: a payload that already binds the
reserved key `auth_token` to `"evil"` still transmits the session token,
while its non-reserved key `x` is untouched. -/
theorem dispatcher_injects_session_fields_witness :
    dictGet (addSessionFields exampleClient
        [("auth_token", Value.str "evil"), ("x", Value.int 1)]) "auth_token"
      = some (Value.str "token-123")
    ∧ dictGet (addSessionFields exampleClient
        [("auth_token", Value.str "evil"), ("x", Value.int 1)]) "x"
      = some (Value.int 1) := by
  have h := dispatcher_injects_session_fields exampleClient okServer "url"
    [("auth_token", Value.str "evil"), ("x", Value.int 1)]
  exact ⟨h.2.2.1,
    (h.2.2.2.2.2.2.2 "x" (by decide) (by decide) (by decide) (by decide) (by decide)).trans
      (by decide)⟩

/-- C2: with verb GET or POST, a 200 response makes the dispatcher return
the decoded body as-is, and any other status code makes it raise `APIError`
carrying exactly that status code — no partial result, and only the one
request modelled by the single application of `server`. -/
theorem dispatcher_result_by_status
    (self : WalkrClient) (url : String) (p : Payload) (s : Nat) (body : Json) :
    (_make_requests self (fun _ => ⟨s, body⟩) url (some p) "GET").result =
      (if s = 200 then Except.ok (some body)
       else Except.error (PyExc.apiError (APIError.init s)))
    ∧ (_make_requests self (fun _ => ⟨s, body⟩) url (some p) "POST").result =
      (if s = 200 then Except.ok (some body)
       else Except.error (PyExc.apiError (APIError.init s)))
    ∧ (APIError.init s).status_code = s := by
  refine ⟨?_, ?_, rfl⟩
  · rw [make_requests_get, exchange_result]
  · rw [make_requests_post, exchange_result]

/-- C3: GET encodes the (session-augmented) payload as query parameters and
POST encodes it as the request body; `fetch_fleet_comments(123)` with the
default `offset=0`, `limit=30` produces a GET to
`/fleets/123/comments` carrying that payload as query parameters. -/
theorem verb_encoding_and_fleet_comments
    (self : WalkrClient) (server : HttpRequest → HttpResponse)
    (url : String) (p : Payload) :
    ((_make_requests self server url (some p) "GET").sent =
      some ⟨url, "GET", some (addSessionFields self p), none, self.headers⟩)
    ∧ ((_make_requests self server url (some p) "POST").sent =
      some ⟨url, "POST", none, some (addSessionFields self p), self.headers⟩)
    ∧ (fetch_fleet_comments self server 123 0 30).sent =
      some ⟨"https://api.walkrconnect.com/api/v1/fleets/123/comments", "GET",
        some (addSessionFields self [("offset", Value.int 0), ("limit", Value.int 30)]),
        none, self.headers⟩ := by
  refine ⟨?_, ?_, ?_⟩
  · rw [make_requests_get, exchange_sent]
  · rw [make_requests_post, exchange_sent]
  · unfold fetch_fleet_comments fetch
    rw [make_requests_get, exchange_sent]
    rfl

/-- C4 (code bug): the dispatcher never dispatches a PUT — the verb falls to
the bare `return` and yields `None` with no request sent — and
`update_booster_information` raises `TypeError` because it passes a third
positional argument to `fetch`, which accepts none. -/
theorem put_never_dispatched
    (self : WalkrClient) (server : HttpRequest → HttpResponse)
    (url : String) (p : Payload) (booster_id : Int) (data : Value) :
    (_make_requests self server url (some p) "PUT").sent = none
    ∧ (_make_requests self server url (some p) "PUT").result = Except.ok none
    ∧ (update_booster_information self server booster_id data).sent = none
    ∧ (update_booster_information self server booster_id data).result =
        Except.error PyExc.typeError := by
  refine ⟨?_, ?_, rfl, rfl⟩ <;> rw [make_requests_put]

/-- The payload literal built by
`donate_resources_for_epic(fleet_id=42, hitpoints=5, event_id=7, value_a=10)`
with the Python defaults `value_b=0`, `value_c=0`. -/
def donateExamplePayload : Payload :=
  [("event_status", Value.str "event"), ("event_type", Value.str "currency"),
   ("event_id", Value.int 7), ("hitpoints", Value.int 5),
   ("value_a", Value.int 10), ("value_b", Value.int 0), ("value_c", Value.int 0)]

/-- C5: `donate_resources_for_epic(fleet_id=42, hitpoints=5, event_id=7,
value_a=10)` (defaults `value_b=0`, `value_c=0`) builds a payload carrying
`event_status="event"`, `event_type="currency"`, `value_b=0`, `value_c=0`
alongside `event_id=7`, `hitpoints=5`, `value_a=10`, and POSTs it (with the
session fields injected) to `/fleets/42/donate`. -/
theorem donate_resources_defaults
    (self : WalkrClient) (server : HttpRequest → HttpResponse) :
    (donate_resources_for_epic self server 42 5 7 10 0 0).sent =
      some ⟨"https://api.walkrconnect.com/api/v1/fleets/42/donate", "POST", none,
        some (addSessionFields self donateExamplePayload), self.headers⟩
    ∧ dictGet donateExamplePayload "event_status" = some (Value.str "event")
    ∧ dictGet donateExamplePayload "event_type" = some (Value.str "currency")
    ∧ dictGet donateExamplePayload "value_b" = some (Value.int 0)
    ∧ dictGet donateExamplePayload "value_c" = some (Value.int 0)
    ∧ dictGet donateExamplePayload "event_id" = some (Value.int 7)
    ∧ dictGet donateExamplePayload "hitpoints" = some (Value.int 5)
    ∧ dictGet donateExamplePayload "value_a" = some (Value.int 10) := by
  refine ⟨?_, by decide, by decide, by decide, by decide, by decide, by decide, by decide⟩
  unfold donate_resources_for_epic request
  rw [make_requests_post, exchange_sent]
  rfl

/-- C6: every dispatcher call — and every wrapper method defined here —
returns the client state unchanged: the session and configuration fields
set at construction are never mutated, on success or on error. -/
theorem client_state_unchanged
    (self : WalkrClient) (server : HttpRequest → HttpResponse)
    (url : String) (payload : Option Payload) (method : String)
    (members : List String) (badge_front badge_back : Int) (name : String)
    (epic_id : Int) (privacy : String) (is_invitable : Bool)
    (fleet_id offset limit hitpoints event_id va vb vc booster_id pilot_id : Int)
    (data : Value) :
    (_make_requests self server url payload method).client = self
    ∧ (fetch self server url payload).client = self
    ∧ (request self server url payload).client = self
    ∧ (fetch_shops self server).client = self
    ∧ (fetch_epics self server).client = self
    ∧ (fetch_booster self server).client = self
    ∧ (start_booster self server).client = self
    ∧ (check_energy self server pilot_id).client = self
    ∧ (fetch_fleet_comments self server fleet_id offset limit).client = self
    ∧ (update_booster_information self server booster_id data).client = self
    ∧ (donate_resources_for_epic self server fleet_id hitpoints event_id va vb vc).client
        = self
    ∧ (create_fleet self server members badge_front badge_back name epic_id privacy
        is_invitable).client = self := by
  exact ⟨make_requests_client _ _ _ _ _, make_requests_client _ _ _ _ _,
    make_requests_client _ _ _ _ _, make_requests_client _ _ _ _ _,
    make_requests_client _ _ _ _ _, make_requests_client _ _ _ _ _,
    make_requests_client _ _ _ _ _, make_requests_client _ _ _ _ _,
    make_requests_client _ _ _ _ _, rfl,
    make_requests_client _ _ _ _ _, make_requests_client _ _ _ _ _⟩

/-- C7: the error raised on a non-200 response carries exactly the HTTP
status code and the message formatted from it, and nothing else: the error
value is written out in full below and does not mention the response body
`b`, for GET and POST alike. -/
theorem api_error_retains_only_status
    (n : Nat) (self : WalkrClient) (url : String) (p : Payload) (s : Nat) (b : Json)
    (h : s ≠ 200) :
    (APIError.init n).status_code = n
    ∧ (APIError.init n).message = "Request failed with status code " ++ toString n
    ∧ (_make_requests self (fun _ => ⟨s, b⟩) url (some p) "GET").result =
        Except.error (PyExc.apiError
          ⟨s, "Request failed with status code " ++ toString s⟩)
    ∧ (_make_requests self (fun _ => ⟨s, b⟩) url (some p) "POST").result =
        Except.error (PyExc.apiError
          ⟨s, "Request failed with status code " ++ toString s⟩) := by
  refine ⟨rfl, rfl, ?_, ?_⟩
  · rw [make_requests_get, exchange_result]
    simp [APIError.init, h]
  · rw [make_requests_post, exchange_result]
    simp [APIError.init, h]

/-- Witness for C7 at a concrete input: a 404 response whose body is the
string `"secret-body"` produces an error holding only the code 404 and the
formatted message. -/
theorem api_error_retains_only_status_witness :
    (404 : Nat) ≠ 200
    ∧ (_make_requests exampleClient (fun _ => ⟨404, Json.str "secret-body"⟩) "url"
        (some []) "GET").result =
      Except.error (PyExc.apiError ⟨404, "Request failed with status code 404"⟩) := by
  refine ⟨by decide, ?_⟩
  have h := (api_error_retains_only_status 404 exampleClient "url" [] 404
    (Json.str "secret-body") (by decide)).2.2.1
  rw [h]
  rfl

/-- C8: whenever the payload argument is omitted (Python default `None`) —
as in `fetch_shops`, `fetch_epics`, `fetch_booster`, `check_energy` and
`start_booster` — the dispatcher raises `TypeError` by subscripting `None`
before any HTTP request is sent, for every verb; no such call can succeed. -/
theorem omitted_payload_always_fails
    (self : WalkrClient) (server : HttpRequest → HttpResponse) (url : String)
    (pilot_id : Int) :
    (∀ method, (_make_requests self server url none method).sent = none
      ∧ (_make_requests self server url none method).result =
          Except.error PyExc.typeError)
    ∧ (fetch self server url none).result = Except.error PyExc.typeError
    ∧ (request self server url none).result = Except.error PyExc.typeError
    ∧ (fetch_shops self server).sent = none
    ∧ (fetch_shops self server).result = Except.error PyExc.typeError
    ∧ (fetch_epics self server).sent = none
    ∧ (fetch_epics self server).result = Except.error PyExc.typeError
    ∧ (fetch_booster self server).sent = none
    ∧ (fetch_booster self server).result = Except.error PyExc.typeError
    ∧ (start_booster self server).sent = none
    ∧ (start_booster self server).result = Except.error PyExc.typeError
    ∧ (check_energy self server pilot_id).sent = none
    ∧ (check_energy self server pilot_id).result = Except.error PyExc.typeError := by
  exact ⟨fun method => ⟨rfl, rfl⟩, rfl, rfl, rfl, rfl, rfl, rfl, rfl, rfl, rfl, rfl,
    rfl, rfl⟩

/-- C9: the dispatcher mutates the caller-supplied payload object in place:
for every verb (including unrecognized ones) the caller's dictionary after
the call is the session-augmented mapping, which now binds all five reserved
keys to the session's values. -/
theorem payload_mutated_in_place
    (self : WalkrClient) (server : HttpRequest → HttpResponse)
    (url : String) (p : Payload) (method : String) :
    (_make_requests self server url (some p) method).payload =
      some (addSessionFields self p)
    ∧ dictGet (addSessionFields self p) "auth_token" = some (Value.str self.auth_token)
    ∧ dictGet (addSessionFields self p) "client_version" = some (Value.str self.version)
    ∧ dictGet (addSessionFields self p) "platform" = some (Value.str self.platform)
    ∧ dictGet (addSessionFields self p) "timezone" = some (Value.int self.tz)
    ∧ dictGet (addSessionFields self p) "locale" = some (Value.str self.locale) := by
  refine ⟨?_, addSessionFields_auth_token self p, addSessionFields_client_version self p,
    addSessionFields_platform self p, addSessionFields_timezone self p,
    addSessionFields_locale self p⟩
  simp only [_make_requests]
  split
  · exact exchange_payload _ _ _ _
  · split
    · exact exchange_payload _ _ _ _
    · rfl

/-- C10: `create_fleet` accepts a `name` argument that never reaches the
payload — the pre-injection payload holds exactly the six keys `epic_id`,
`members`, `badge_front`, `badge_back`, `privacy`, `is_invitable`, the key
`name` is absent even after session injection — and the members list is
encoded as the string `'0, '` prepended to the comma-joined ids. -/
theorem create_fleet_payload_shape
    (self : WalkrClient) (server : HttpRequest → HttpResponse)
    (members : List String) (badge_front badge_back : Int) (name : String)
    (epic_id : Int) (privacy : String) (is_invitable : Bool) :
    (create_fleet self server members badge_front badge_back name epic_id privacy
        is_invitable).sent =
      some ⟨"https://api.walkrconnect.com/api/v1/fleets", "POST", none,
        some (addSessionFields self
          [("epic_id", Value.int epic_id),
           ("members", Value.str ("0, " ++ String.intercalate ", " members)),
           ("badge_front", Value.int badge_front),
           ("badge_back", Value.int badge_back),
           ("privacy", Value.str privacy),
           ("is_invitable", Value.bool is_invitable)]), self.headers⟩
    ∧ dictKeys
        [("epic_id", Value.int epic_id),
         ("members", Value.str ("0, " ++ String.intercalate ", " members)),
         ("badge_front", Value.int badge_front),
         ("badge_back", Value.int badge_back),
         ("privacy", Value.str privacy),
         ("is_invitable", Value.bool is_invitable)] =
        ["epic_id", "members", "badge_front", "badge_back", "privacy", "is_invitable"]
    ∧ dictGet (addSessionFields self
        [("epic_id", Value.int epic_id),
         ("members", Value.str ("0, " ++ String.intercalate ", " members)),
         ("badge_front", Value.int badge_front),
         ("badge_back", Value.int badge_back),
         ("privacy", Value.str privacy),
         ("is_invitable", Value.bool is_invitable)]) "name" = none := by
  refine ⟨?_, rfl, ?_⟩
  · unfold create_fleet request
    rw [make_requests_post, exchange_sent]
    rfl
  · rw [addSessionFields_other self _ "name" (by decide) (by decide) (by decide)
      (by decide) (by decide)]
    simp [dictGet]

end WalkrX
